import Mathlib

/-!
Shallow embedding of the osmo licensing-ledger contracts
(`ModelRegistry.sol`, `ModelMarketplace.sol` with the `ModelToken` license
contract, and `DerivativeRoyaltyRegistry.sol`) in Lean 4, together with
theorems settling the frozen claims about the natural-language spec.

Conventions of the embedding:
* `uint256` is modelled as `Nat`; Solidity 0.8 checked arithmetic is made
  explicit through `cadd`/`cmul`/`csub`, which revert (return `.error`)
  when the result would leave `[0, 2^256)`.  OpenZeppelin `Counters`
  increments are unchecked in the library source, so counter bumps use
  plain `+ 1`.
* `address` is modelled as `Nat`, with `0` playing the role of the zero
  address.
* Storage mappings are modelled as total functions with the Solidity
  default value at absent keys; a write is `setAt`.
* Every state-mutating contract function is a pure function from the
  pre-states and the call context (`msg.sender`, `msg.value`,
  `block.timestamp`, arguments) to `Except String` of the post-states;
  an `.error` carries the revert reason and, as in the EVM, discards all
  intermediate writes.
* Operations that move funds outward also return a `List Ev` trace
  recording, in execution order, each storage write and each outward
  value transfer, so that ordering (checks-effects-interactions) and
  conservation properties can be stated.
* `keccak256`-derived values are abstracted by an explicit hash-function
  parameter `kec`; no claim depends on concrete hash values.
-/

namespace Osmo

/-- `2^256`, the modulus of EVM words. -/
def U256 : Nat := 2 ^ 256

/-- Revert reason used by Solidity 0.8 checked arithmetic. -/
def overflowMsg : String := "Panic: arithmetic over- or underflow"

/-- Checked `uint256` addition (Solidity 0.8 semantics). -/
def cadd (a b : Nat) : Except String Nat :=
  if a + b < U256 then .ok (a + b) else .error overflowMsg

/-- Checked `uint256` multiplication (Solidity 0.8 semantics). -/
def cmul (a b : Nat) : Except String Nat :=
  if a * b < U256 then .ok (a * b) else .error overflowMsg

/-- Checked `uint256` subtraction (Solidity 0.8 semantics). -/
def csub (a b : Nat) : Except String Nat :=
  if b ≤ a then .ok (a - b) else .error overflowMsg

/-- Write one key of a mapping modelled as a total function. -/
def setAt {α : Type} (f : Nat → α) (k : Nat) (v : α) : Nat → α :=
  fun i => if i = k then v else f i

/-- Observable step of a state-mutating operation: an internal storage
write (tagged with the storage location) or an outward value transfer
`xfer recipient amount`. -/
inductive Ev : Type
  | write : String → Ev
  | xfer : Nat → Nat → Ev
  deriving DecidableEq, Repr

/-- Is the event an internal storage write? -/
def Ev.isWrite : Ev → Bool
  | .write _ => true
  | .xfer _ _ => false

/-- Total amount moved outward by a trace. -/
def sumXfers : List Ev → Nat
  | [] => 0
  | .xfer _ a :: t => a + sumXfers t
  | .write _ :: t => sumXfers t

/-- Checks-effects-interactions discipline on a trace: after the first
outward transfer no further storage write occurs. -/
def ceiHolds : List Ev → Bool
  | [] => true
  | .write _ :: t => ceiHolds t
  | .xfer _ _ :: t => t.all fun e => ! e.isWrite

/-- Projection of an `Except` result to its error message, if any. -/
def errMsg {α : Type} : Except String α → Option String
  | .error e => some e
  | .ok _ => none

/-! ## ModelRegistry (`ModelRegistry.sol`, contract `ModelRegistry`) -/

/-- `ModelRegistry.Model` storage struct.  The Solidity field `exists` is
spelled `exists_` because `exists` is a Lean keyword. -/
structure Model where
  creator : Nat
  createdAt : Nat
  updatedAt : Nat
  modelIPFS : String
  metadataIPFS : String
  exists_ : Bool
  active : Bool
  derivativeCount : Nat
  deriving DecidableEq, Repr

/-- Solidity default value of a `Model` mapping slot. -/
def defaultModel : Model :=
  { creator := 0, createdAt := 0, updatedAt := 0, modelIPFS := "",
    metadataIPFS := "", exists_ := false, active := false, derivativeCount := 0 }

/-- Storage of the `ModelRegistry` contract. -/
structure RegistryState where
  modelIdCounter : Nat
  models : Nat → Model
  creatorModels : Nat → List Nat
  modelDerivatives : Nat → List Nat
  marketplace : Nat
  derivativeRoyaltyRegistry : Nat
  owner : Nat

/-- `ModelRegistry.updateMetadata` (modifiers `modelExists`, `onlyCreator`
in that order, then the non-empty-reference check). -/
def updateMetadata (s : RegistryState) (sender ts modelId : Nat)
    (newMetadataIPFS : String) : Except String RegistryState :=
  if (s.models modelId).exists_ = false then
    .error "ModelRegistry: Model does not exist"
  else if (s.models modelId).creator ≠ sender then
    .error "ModelRegistry: Not model creator"
  else if newMetadataIPFS = "" then
    .error "ModelRegistry: Metadata IPFS required"
  else
    let m2 := { s.models modelId with metadataIPFS := newMetadataIPFS, updatedAt := ts }
    .ok { s with models := setAt s.models modelId m2 }

/-- `ModelRegistry.toggleModelActive` (modifiers `modelExists`, `onlyCreator`).
The timestamp appears only in the emitted event, so `_ts` is unused. -/
def toggleModelActive (s : RegistryState) (sender _ts modelId : Nat) :
    Except String RegistryState :=
  if (s.models modelId).exists_ = false then
    .error "ModelRegistry: Model does not exist"
  else if (s.models modelId).creator ≠ sender then
    .error "ModelRegistry: Not model creator"
  else
    let m2 := { s.models modelId with active := ! (s.models modelId).active }
    .ok { s with models := setAt s.models modelId m2 }

/-- `ModelRegistry.incrementDerivativeCount` (modifiers `modelExists`,
`onlyMarketplace`).  The timestamp argument `ts` of the other mutators is
not needed here. -/
def incrementDerivativeCount (s : RegistryState) (sender modelId : Nat) :
    Except String RegistryState :=
  if (s.models modelId).exists_ = false then
    .error "ModelRegistry: Model does not exist"
  else if sender ≠ s.marketplace then
    .error "ModelRegistry: Only marketplace can call"
  else
    match cadd (s.models modelId).derivativeCount 1 with
    | .error e => .error e
    | .ok dc =>
        let m2 := { s.models modelId with derivativeCount := dc }
        .ok { s with models := setAt s.models modelId m2 }

/-- `ModelRegistry.isModelActive`. -/
def isModelActive (s : RegistryState) (modelId : Nat) : Bool :=
  (s.models modelId).exists_ && (s.models modelId).active

/-! ## ModelMarketplace (`ModelMarketplace.sol`) -/

/-- `ModelMarketplace.LicenseConfig` storage struct. -/
structure LicenseConfig where
  personalPrice : Nat
  indiePrice : Nat
  commercialPrice : Nat
  enterprisePrice : Nat
  personalDuration : Nat
  indieDuration : Nat
  commercialDuration : Nat
  enterpriseDuration : Nat
  deriving DecidableEq, Repr

/-- Default (all-zero) `LicenseConfig`. -/
def defaultLicenseConfig : LicenseConfig :=
  { personalPrice := 0, indiePrice := 0, commercialPrice := 0, enterprisePrice := 0,
    personalDuration := 0, indieDuration := 0, commercialDuration := 0,
    enterpriseDuration := 0 }

/-- `ModelMarketplace.Variation` storage struct. -/
structure Variation where
  name : String
  price : Nat
  metadataIPFS : String
  active : Bool
  deriving DecidableEq, Repr

/-- `ModelMarketplace.RoyaltyInfo` storage struct (recipient, basis points). -/
structure RoyaltyInfo where
  recipient : Nat
  bps : Nat
  deriving DecidableEq, Repr

/-- Storage of the `ModelMarketplace` contract. -/
structure MarketplaceState where
  licenseConfigs : Nat → LicenseConfig
  royalties : Nat → RoyaltyInfo
  maxSupplies : Nat → Nat
  soldCounts : Nat → Nat
  variations : Nat → List Variation
  forSale : Nat → Bool
  owner : Nat

/-- `ModelMarketplace.MAX_ROYALTY_BPS`. -/
def MAX_ROYALTY_BPS : Nat := 2000

/-- `ModelMarketplace.getLicensePrice`.  The source dispatches on
`keccak256(abi.encodePacked(licenseType))` equality, which on strings is
exactly string equality. -/
def getLicensePrice (m : MarketplaceState) (modelId : Nat) (licenseType : String) :
    Except String Nat :=
  let c := m.licenseConfigs modelId
  if licenseType = "personal" then .ok c.personalPrice
  else if licenseType = "indie" then .ok c.indiePrice
  else if licenseType = "commercial" then .ok c.commercialPrice
  else if licenseType = "enterprise" then .ok c.enterprisePrice
  else .error "Marketplace: Invalid license type"

/-- `ModelMarketplace.getLicenseDuration`. -/
def getLicenseDuration (m : MarketplaceState) (modelId : Nat) (licenseType : String) :
    Except String Nat :=
  let c := m.licenseConfigs modelId
  if licenseType = "personal" then .ok c.personalDuration
  else if licenseType = "indie" then .ok c.indieDuration
  else if licenseType = "commercial" then .ok c.commercialDuration
  else if licenseType = "enterprise" then .ok c.enterpriseDuration
  else .error "Marketplace: Invalid license type"

/-- Loop body of `ModelMarketplace.getTotalPrice`: fold over the chosen
variation ids, checking index range and activity, accumulating wtih
checked addition. -/
def sumVariations (vars : List Variation) (ids : List Nat) (acc : Nat) :
    Except String Nat :=
  match ids with
  | [] => .ok acc
  | vid :: rest =>
    if h : vid < vars.length then
      let v := vars.get ⟨vid, h⟩
      if v.active then
        match cadd acc v.price with
        | .error e => .error e
        | .ok acc2 => sumVariations vars rest acc2
      else .error "Marketplace: Variation not active"
    else .error "Marketplace: Invalid variation ID"

/-- `ModelMarketplace.getTotalPrice`. -/
def getTotalPrice (m : MarketplaceState) (modelId : Nat) (licenseType : String)
    (variationIds : List Nat) : Except String Nat :=
  match getLicensePrice m modelId licenseType with
  | .error e => .error e
  | .ok base => sumVariations (m.variations modelId) variationIds base

/-- `ModelMarketplace.royaltyInfo` (ERC-2981): `(0, 0)` when no royalty is
configured, else the recipient together with the royalty *amount*
`salePrice * bps / 10000` in floor division. -/
def royaltyInfo (m : MarketplaceState) (modelId salePrice : Nat) :
    Except String (Nat × Nat) :=
  let r := m.royalties modelId
  if r.recipient = 0 then .ok (0, 0)
  else
    match cmul salePrice r.bps with
    | .error e => .error e
    | .ok p => .ok (r.recipient, p / 10000)

/-- `ModelMarketplace.canPurchase`. -/
def canPurchase (reg : RegistryState) (m : MarketplaceState) (modelId : Nat) : Bool :=
  if isModelActive reg modelId = false then false
  else if m.forSale modelId = false then false
  else if 0 < m.maxSupplies modelId ∧ m.maxSupplies modelId ≤ m.soldCounts modelId then
    false
  else true

/-- `ModelMarketplace.incrementSoldCount`.  The source has no caller
restriction: the `sender` argument is unused, mirroring the missing
access-control check. -/
def incrementSoldCount (m : MarketplaceState) (_sender modelId : Nat) :
    Except String MarketplaceState :=
  match cadd (m.soldCounts modelId) 1 with
  | .error e => .error e
  | .ok sc => .ok { m with soldCounts := setAt m.soldCounts modelId sc }

/-! ## ModelToken (`ModelRegistry.sol`, contract `ModelToken`) -/

/-- `ModelToken.LicenseSnapshot` storage struct. -/
structure LicenseSnapshot where
  licenseType : String
  purchasedAt : Nat
  expiresAt : Nat
  duration : Nat
  deriving DecidableEq, Repr

/-- `ModelToken.PurchaseSnapshot` storage struct.  Note that the field
`royaltyBpsAtPurchase` is filled by `purchaseModel` with the second
return value of `royaltyInfo`, which is a royalty *amount*. -/
structure PurchaseSnapshot where
  modelId : Nat
  purchasedAt : Nat
  pricePaid : Nat
  license : LicenseSnapshot
  variationIds : List Nat
  metadataSnapshot : String
  royaltyBpsAtPurchase : Nat
  burned : Bool
  downloadKey : String
  deriving DecidableEq, Repr

/-- Solidity default value of a `PurchaseSnapshot` mapping slot. -/
def defaultSnapshot : PurchaseSnapshot :=
  { modelId := 0, purchasedAt := 0, pricePaid := 0,
    license := { licenseType := "", purchasedAt := 0, expiresAt := 0, duration := 0 },
    variationIds := [], metadataSnapshot := "", royaltyBpsAtPurchase := 0,
    burned := false, downloadKey := "" }

/-- Storage of the `ModelToken` ERC721 contract.  `owners` is the ERC721
`_ownerOf` mapping (`0` = token does not exist), `owner` the `Ownable`
administrator, and `tokenURIs` the `ERC721URIStorage` mapping. -/
structure TokenState where
  tokenIdCounter : Nat
  purchaseSnapshots : Nat → PurchaseSnapshot
  modelPurchaseCount : Nat → Nat
  userTokens : Nat → List Nat
  owners : Nat → Nat
  tokenURIs : Nat → String
  owner : Nat

/-- `ModelToken.isLicenseValid`: perpetual (`expiresAt = 0`) or not yet
past the expiry. -/
def isLicenseValid (tok : TokenState) (ts tokenId : Nat) : Bool :=
  let e := (tok.purchaseSnapshots tokenId).license.expiresAt
  e = 0 || decide (ts ≤ e)

/-- `ModelToken._distributePayment`: computes
`royaltyAmount = totalPrice * royaltyBps / 10000`, pays the creator
`totalPrice - royaltyAmount`, and pays `royaltyAmount` to the royalty
recipient when it is positive and the recipient is nonzero.  Returns the
outward-transfer trace. -/
def distributePayment (creator totalPrice royaltyRecipient royaltyBps : Nat) :
    Except String (List Ev) :=
  match cmul totalPrice royaltyBps with
  | .error e => .error e
  | .ok m =>
    let royaltyAmount := m / 10000
    match csub totalPrice royaltyAmount with
    | .error e => .error e
    | .ok creatorAmount =>
      if 0 < royaltyAmount ∧ royaltyRecipient ≠ 0 then
        .ok [Ev.xfer creator creatorAmount, Ev.xfer royaltyRecipient royaltyAmount]
      else
        .ok [Ev.xfer creator creatorAmount]

/-- `ModelToken.purchaseModel`.  The source guards the call with the
modifier `tokenExists(modelId)`, i.e. it requires an ERC721 *token* with
id equal to the *model* id to exist; this is embedded faithfully as the
first check.  Returns the updated marketplace and token states, the new
token id, and the write/transfer trace in execution order.  The `_mint`
preconditions of ERC721 (nonzero receiver, id not yet minted) are the
two checks before the storage writes. -/
def purchaseModel (reg : RegistryState) (mkt : MarketplaceState) (tok : TokenState)
    (sender value ts modelId : Nat)
    (licenseType : String) (variationIds : List Nat) :
    Except String (MarketplaceState × TokenState × Nat × List Ev) :=
  if tok.owners modelId = 0 then .error "ModelToken: Token does not exist"
  else if canPurchase reg mkt modelId = false then
    .error "ModelToken: Model not available"
  else
    match getTotalPrice mkt modelId licenseType variationIds with
    | .error e => .error e
    | .ok totalPrice =>
      if value < totalPrice then .error "ModelToken: Insufficient payment"
      else
        let model := reg.models modelId
        match royaltyInfo mkt modelId totalPrice with
        | .error e => .error e
        | .ok ri =>
          match getLicenseDuration mkt modelId licenseType with
          | .error e => .error e
          | .ok duration =>
            match (if 0 < duration then cadd ts duration else .ok 0) with
            | .error e => .error e
            | .ok expiresAt =>
              let tokenId := tok.tokenIdCounter
              if sender = 0 then .error "ERC721InvalidReceiver"
              else if tok.owners tokenId ≠ 0 then .error "ERC721InvalidSender"
              else
                match cadd (tok.modelPurchaseCount modelId) 1 with
                | .error e => .error e
                | .ok mpc =>
                  match cadd (mkt.soldCounts modelId) 1 with
                  | .error e => .error e
                  | .ok sc =>
                    match distributePayment model.creator totalPrice ri.1 ri.2 with
                    | .error e => .error e
                    | .ok dtr =>
                      let snap : PurchaseSnapshot :=
                        { modelId := modelId, purchasedAt := ts, pricePaid := totalPrice,
                          license := { licenseType := licenseType, purchasedAt := ts,
                                       expiresAt := expiresAt, duration := duration },
                          variationIds := variationIds,
                          metadataSnapshot := model.metadataIPFS,
                          royaltyBpsAtPurchase := ri.2, burned := false, downloadKey := "" }
                      let tok2 : TokenState :=
                        { tok with
                          tokenIdCounter := tok.tokenIdCounter + 1,
                          purchaseSnapshots := setAt tok.purchaseSnapshots tokenId snap,
                          owners := setAt tok.owners tokenId sender,
                          tokenURIs := setAt tok.tokenURIs tokenId model.metadataIPFS,
                          userTokens := setAt tok.userTokens sender
                            (tok.userTokens sender ++ [tokenId]),
                          modelPurchaseCount := setAt tok.modelPurchaseCount modelId mpc }
                      let mkt2 : MarketplaceState :=
                        { mkt with soldCounts := setAt mkt.soldCounts modelId sc }
                      .ok (mkt2, tok2, tokenId,
                        [Ev.write "tokenIdCounter", Ev.write "purchaseSnapshots",
                         Ev.write "owners", Ev.write "tokenURIs", Ev.write "userTokens",
                         Ev.write "modelPurchaseCount", Ev.write "soldCounts"] ++ dtr)

/-- `ModelToken.burnForDownload` (modifiers `tokenExists`, `onlyTokenOwner`).
The generated download key follows `_generateDownloadKey`:
`"key_" ++ tokenId ++ "_" ++ timestamp ++ "_" ++ keccak(tokenId, timestamp, sender)`
in decimal notation, with the keccak hash abstracted by `kec`.  Burning
clears the ERC721 owner (the custom `_update` override leaves `userTokens`
untouched on burn because its branch requires both endpoints nonzero). -/
def burnForDownload (tok : TokenState) (kec : Nat → Nat → Nat → Nat)
    (sender ts tokenId : Nat) : Except String (TokenState × String) :=
  if tok.owners tokenId = 0 then .error "ModelToken: Token does not exist"
  else if tok.owners tokenId ≠ sender then .error "ModelToken: Not token owner"
  else if (tok.purchaseSnapshots tokenId).burned then .error "ModelToken: Already burned"
  else if isLicenseValid tok ts tokenId = false then .error "ModelToken: License expired"
  else
    let downloadKey :=
      "key_" ++ toString tokenId ++ "_" ++ toString ts ++ "_" ++
        toString (kec tokenId ts sender)
    let snap2 := { tok.purchaseSnapshots tokenId with
                   burned := true, downloadKey := downloadKey }
    .ok ({ tok with
            purchaseSnapshots := setAt tok.purchaseSnapshots tokenId snap2,
            owners := setAt tok.owners tokenId 0 }, downloadKey)

/-- `ModelToken.setDownloadKey` (modifier `onlyOwner`, then the
token-must-be-burned check). -/
def setDownloadKey (tok : TokenState) (sender tokenId : Nat) (downloadKey : String) :
    Except String TokenState :=
  if sender ≠ tok.owner then .error "OwnableUnauthorizedAccount"
  else if (tok.purchaseSnapshots tokenId).burned = false then
    .error "ModelToken: Token not burned"
  else
    let snap2 := { tok.purchaseSnapshots tokenId with downloadKey := downloadKey }
    .ok { tok with purchaseSnapshots := setAt tok.purchaseSnapshots tokenId snap2 }

/-- `ModelToken.renewLicense` (modifiers `tokenExists`, `onlyTokenOwner`).
The new expiry is the snapshot expiry plus the snapshot duration; the
royalty split uses the snapshotted `royaltyBpsAtPurchase` while the
renewal price and royalty recipient come from the current marketplace
state.  Returns the updated token state and the write/transfer trace. -/
def renewLicense (reg : RegistryState) (mkt : MarketplaceState) (tok : TokenState)
    (sender value _ts tokenId : Nat) : Except String (TokenState × List Ev) :=
  if tok.owners tokenId = 0 then .error "ModelToken: Token does not exist"
  else if tok.owners tokenId ≠ sender then .error "ModelToken: Not token owner"
  else
    let snapshot := tok.purchaseSnapshots tokenId
    if snapshot.license.expiresAt = 0 then
      .error "ModelToken: Cannot renew perpetual license"
    else if snapshot.burned then .error "ModelToken: Token burned"
    else
      let modelId := snapshot.modelId
      match getLicensePrice mkt modelId snapshot.license.licenseType with
      | .error e => .error e
      | .ok renewalPrice =>
        if value < renewalPrice then .error "ModelToken: Insufficient renewal payment"
        else
          match cadd snapshot.license.expiresAt snapshot.license.duration with
          | .error e => .error e
          | .ok newExpiry =>
            let lic2 := { snapshot.license with expiresAt := newExpiry }
            let snap2 := { snapshot with license := lic2 }
            let tok2 := { tok with
                          purchaseSnapshots := setAt tok.purchaseSnapshots tokenId snap2 }
            match cmul renewalPrice snapshot.royaltyBpsAtPurchase with
            | .error e => .error e
            | .ok m =>
              let royaltyAmount := m / 10000
              match csub renewalPrice royaltyAmount with
              | .error e => .error e
              | .ok creatorAmount =>
                let creatorXfer := Ev.xfer (reg.models modelId).creator creatorAmount
                if 0 < royaltyAmount then
                  match royaltyInfo mkt modelId renewalPrice with
                  | .error e => .error e
                  | .ok ri =>
                    if ri.1 ≠ 0 then
                      .ok (tok2, [Ev.write "license.expiresAt", creatorXfer,
                                  Ev.xfer ri.1 royaltyAmount])
                    else .ok (tok2, [Ev.write "license.expiresAt", creatorXfer])
                else .ok (tok2, [Ev.write "license.expiresAt", creatorXfer])

/-- Swap-remove of the first occurrence of `x`, as in the `ModelToken`
`_update` override: the found slot receives the last element and the
list is shortened by one. -/
def swapRemove (l : List Nat) (x : Nat) : List Nat :=
  match l.indexOf? x with
  | none => l
  | some i => (l.set i (l.getLastD 0)).dropLast

/-- ERC721 `transferFrom` specialised to this contract (OpenZeppelin
semantics plus the `_update` override maintaining `userTokens`).  The
approval mechanism is not modelled: a transfer succeeds only when the
caller is the current owner, which is sufficient for the claims proved
here because the nonexistent-token check precedes any authorisation. -/
def transferFrom (tok : TokenState) (caller from_ toAddr tokenId : Nat) :
    Except String TokenState :=
  if toAddr = 0 then .error "ERC721InvalidReceiver"
  else
    let o := tok.owners tokenId
    if o = 0 then .error "ERC721NonexistentToken"
    else if caller ≠ o then .error "ERC721InsufficientApproval"
    else if o ≠ from_ then .error "ERC721IncorrectOwner"
    else
      let ut1 := setAt tok.userTokens from_ (swapRemove (tok.userTokens from_) tokenId)
      let ut2 := setAt ut1 toAddr (ut1 toAddr ++ [tokenId])
      .ok { tok with owners := setAt tok.owners tokenId toAddr, userTokens := ut2 }

/-! ## DerivativeRoyaltyRegistry (`DerivativeRoyaltyRegistry.sol`) -/

/-- `DerivativeRoyaltyRegistry.DerivativeRoyalty` storage struct. -/
structure DerivativeRoyalty where
  originalModelId : Nat
  originalCreator : Nat
  royaltyBps : Nat
  active : Bool
  deriving DecidableEq, Repr

/-- `DerivativeRoyaltyRegistry.RoyaltyPayment` storage struct (`from` is
spelled `from_` because `from` is a Lean keyword). -/
structure RoyaltyPayment where
  from_ : Nat
  to_ : Nat
  amount : Nat
  modelId : Nat
  paymentType : String
  message : String
  timestamp : Nat
  deriving DecidableEq, Repr

/-- Default (all-zero) `RoyaltyPayment` slot. -/
def defaultPayment : RoyaltyPayment :=
  { from_ := 0, to_ := 0, amount := 0, modelId := 0, paymentType := "",
    message := "", timestamp := 0 }

/-- Storage of the `DerivativeRoyaltyRegistry` contract. -/
structure RoyaltyRegState where
  paymentIdCounter : Nat
  derivativeRoyalties : Nat → DerivativeRoyalty
  claimableRoyalties : Nat → Nat
  royaltyPayments : Nat → RoyaltyPayment
  creatorPayments : Nat → List Nat
  owner : Nat

/-- `DerivativeRoyaltyRegistry.MAX_DERIVATIVE_ROYALTY_BPS`. -/
def MAX_DERIVATIVE_ROYALTY_BPS : Nat := 2000

/-- `DerivativeRoyaltyRegistry.setDerivativeRoyalty`.  There is no caller
authorisation: `_caller` is unused, mirroring the source.  After writing
the configuration the contract calls
`registry.incrementDerivativeCount(originalModelId)` with itself
(`selfAddr`) as `msg.sender`; that callee is restricted to the
registry's `marketplace` address, and its revert aborts the whole
operation. -/
def setDerivativeRoyalty (reg : RegistryState) (roy : RoyaltyRegState)
    (selfAddr _caller derivativeModelId originalModelId royaltyBps : Nat) :
    Except String (RegistryState × RoyaltyRegState) :=
  if (reg.models derivativeModelId).exists_ = false then
    .error "DerivativeRoyalty: Model does not exist"
  else if (reg.models originalModelId).exists_ = false then
    .error "DerivativeRoyalty: Model does not exist"
  else if MAX_DERIVATIVE_ROYALTY_BPS < royaltyBps then
    .error "DerivativeRoyalty: Royalty too high"
  else
    let originalModel := reg.models originalModelId
    if originalModel.creator = 0 then .error "DerivativeRoyalty: Invalid original creator"
    else
      let cfg : DerivativeRoyalty :=
        { originalModelId := originalModelId, originalCreator := originalModel.creator,
          royaltyBps := royaltyBps, active := true }
      let roy2 := { roy with
                    derivativeRoyalties := setAt roy.derivativeRoyalties derivativeModelId cfg }
      match incrementDerivativeCount reg selfAddr originalModelId with
      | .error e => .error e
      | .ok reg2 => .ok (reg2, roy2)

/-- `DerivativeRoyaltyRegistry.payDerivativeRoyalty` (modifier
`modelExists`).  Credits the royalty share to the original creator's
claimable balance, transfers the remainder back to the caller, and only
then appends the audit record; the trace records this order. -/
def payDerivativeRoyalty (reg : RegistryState) (roy : RoyaltyRegState)
    (sender value ts derivativeModelId salePrice : Nat) :
    Except String (RoyaltyRegState × List Ev) :=
  if (reg.models derivativeModelId).exists_ = false then
    .error "DerivativeRoyalty: Model does not exist"
  else
    let royalty := roy.derivativeRoyalties derivativeModelId
    if royalty.active = false then .error "DerivativeRoyalty: No derivative royalty set"
    else if value ≠ salePrice then .error "DerivativeRoyalty: Incorrect payment amount"
    else
      match cmul salePrice royalty.royaltyBps with
      | .error e => .error e
      | .ok m =>
        let royaltyAmount := m / 10000
        match csub salePrice royaltyAmount with
        | .error e => .error e
        | .ok remainingAmount =>
          match cadd (roy.claimableRoyalties royalty.originalCreator) royaltyAmount with
          | .error e => .error e
          | .ok newBal =>
            let paymentId := roy.paymentIdCounter
            let rec2 : RoyaltyPayment :=
              { from_ := sender, to_ := royalty.originalCreator, amount := royaltyAmount,
                modelId := derivativeModelId, paymentType := "derivative",
                message := "", timestamp := ts }
            let roy2 := { roy with
              claimableRoyalties := setAt roy.claimableRoyalties royalty.originalCreator newBal,
              paymentIdCounter := roy.paymentIdCounter + 1,
              royaltyPayments := setAt roy.royaltyPayments paymentId rec2,
              creatorPayments := setAt roy.creatorPayments royalty.originalCreator
                (roy.creatorPayments royalty.originalCreator ++ [paymentId]) }
            .ok (roy2,
              [Ev.write "claimableRoyalties", Ev.xfer sender remainingAmount,
               Ev.write "paymentIdCounter", Ev.write "royaltyPayments",
               Ev.write "creatorPayments"])

/-- `DerivativeRoyaltyRegistry.payDirectRoyalty`: validates the recipient,
a nonzero payment, and no self-tipping, then credits the full amount to
the recipient's claimable balance and appends the audit record.  No
outward transfer occurs. -/
def payDirectRoyalty (roy : RoyaltyRegState) (sender value ts creator : Nat)
    (message : String) : Except String RoyaltyRegState :=
  if creator = 0 then .error "DerivativeRoyalty: Invalid creator address"
  else if value = 0 then .error "DerivativeRoyalty: Payment required"
  else if creator = sender then .error "DerivativeRoyalty: Cannot pay yourself"
  else
    match cadd (roy.claimableRoyalties creator) value with
    | .error e => .error e
    | .ok newBal =>
      let paymentId := roy.paymentIdCounter
      let rec2 : RoyaltyPayment :=
        { from_ := sender, to_ := creator, amount := value, modelId := 0,
          paymentType := "direct", message := message, timestamp := ts }
      .ok { roy with
            claimableRoyalties := setAt roy.claimableRoyalties creator newBal,
            paymentIdCounter := roy.paymentIdCounter + 1,
            royaltyPayments := setAt roy.royaltyPayments paymentId rec2,
            creatorPayments := setAt roy.creatorPayments creator
              (roy.creatorPayments creator ++ [paymentId]) }

/-- `DerivativeRoyaltyRegistry.claimRoyalties`: fails when the caller's
claimable balance is zero; otherwise zeroes the balance and then
transfers exactly the pre-call balance, in that order (visible in the
trace).  Returns the claimed amount as the source returns it through
the emitted event. -/
def claimRoyalties (roy : RoyaltyRegState) (sender : Nat) :
    Except String (RoyaltyRegState × Nat × List Ev) :=
  let amount := roy.claimableRoyalties sender
  if 0 < amount then
    .ok ({ roy with claimableRoyalties := setAt roy.claimableRoyalties sender 0 },
         amount, [Ev.write "claimableRoyalties", Ev.xfer sender amount])
  else .error "DerivativeRoyalty: No royalties to claim"

/-- `DerivativeRoyaltyRegistry.deactivateDerivativeRoyalty` (modifier
`onlyOwner`). -/
def deactivateDerivativeRoyalty (roy : RoyaltyRegState) (sender derivativeModelId : Nat) :
    Except String RoyaltyRegState :=
  if sender ≠ roy.owner then .error "OwnableUnauthorizedAccount"
  else
    let cfg2 := { roy.derivativeRoyalties derivativeModelId with active := false }
    .ok { roy with
          derivativeRoyalties := setAt roy.derivativeRoyalties derivativeModelId cfg2 }

/-! ## Concrete fixture states used by the evaluation theorems and witnesses -/

/-- Empty royalty configuration (mapping default). -/
def zeroRoyalty : RoyaltyInfo := { recipient := 0, bps := 0 }

/-- A registered, active model with creator `1`. -/
def fixModel0 : Model :=
  { creator := 1, createdAt := 10, updatedAt := 10, modelIPFS := "QmModel",
    metadataIPFS := "QmMeta", exists_ := true, active := true, derivativeCount := 0 }

/-- Registry holding `fixModel0` as model `0`. -/
def fixReg : RegistryState :=
  { modelIdCounter := 1, models := setAt (fun _ => defaultModel) 0 fixModel0,
    creatorModels := fun _ => [], modelDerivatives := fun _ => [],
    marketplace := 50, derivativeRoyaltyRegistry := 60, owner := 99 }

/-- License configuration: Commercial price 300 with a one-year duration,
personal price 100 perpetual. -/
def fixLC : LicenseConfig :=
  { defaultLicenseConfig with
    personalPrice := 100, commercialPrice := 300, commercialDuration := 31536000 }

/-- Marketplace: model `0` for sale, unlimited supply, royalty 1000 bps to
recipient `9`. -/
def fixMkt : MarketplaceState :=
  { licenseConfigs := setAt (fun _ => defaultLicenseConfig) 0 fixLC,
    royalties := setAt (fun _ => zeroRoyalty) 0 { recipient := 9, bps := 1000 },
    maxSupplies := fun _ => 0, soldCounts := fun _ => 0,
    variations := fun _ => [], forSale := setAt (fun _ => false) 0 true, owner := 99 }

/-- Token contract state of a fresh deployment: no token minted. -/
def fixTokFresh : TokenState :=
  { tokenIdCounter := 0, purchaseSnapshots := fun _ => defaultSnapshot,
    modelPurchaseCount := fun _ => 0, userTokens := fun _ => [],
    owners := fun _ => 0, tokenURIs := fun _ => "", owner := 9 }

/-- Token state in which a token with id `0` happens to exist (owned by
`77`), so that the `tokenExists(modelId)` guard of `purchaseModel` passes
for model `0`; the next token id is `6`. -/
def fixTok : TokenState :=
  { fixTokFresh with owners := setAt fixTokFresh.owners 0 77, tokenIdCounter := 6 }

/-- Marketplace state with a sold count of 3 for model `7`. -/
def fixMktSold : MarketplaceState :=
  { fixMkt with soldCounts := setAt (fun _ => 0) 7 3 }

/-- Default (inactive, all-zero) `DerivativeRoyalty` slot. -/
def defaultDerivRoyalty : DerivativeRoyalty :=
  { originalModelId := 0, originalCreator := 0, royaltyBps := 0, active := false }

/-- Royalty registry in its deployment state: no configuration, no
balances, administrator `99`. -/
def fixRoy : RoyaltyRegState :=
  { paymentIdCounter := 0, derivativeRoyalties := fun _ => defaultDerivRoyalty,
    claimableRoyalties := fun _ => 0, royaltyPayments := fun _ => defaultPayment,
    creatorPayments := fun _ => [], owner := 99 }

/-- Trivial stand-in for the abstracted keccak hash. -/
def kecZero : Nat → Nat → Nat → Nat := fun _ _ _ => 0

/-- Token state with token `0` owned by `4` (perpetual, unburned
snapshot), ready to be burned. -/
def fixTokBurn : TokenState :=
  { fixTokFresh with owners := setAt fixTokFresh.owners 0 4, tokenIdCounter := 1 }

/-- The state after `burnForDownload fixTokBurn kecZero 4 100 0`:
snapshot `0` burned with the generated key, ERC721 owner cleared. -/
def fixTokBurned : TokenState :=
  { fixTokBurn with
    purchaseSnapshots := setAt fixTokBurn.purchaseSnapshots 0
      { fixTokBurn.purchaseSnapshots 0 with burned := true, downloadKey := "key_0_100_0" },
    owners := setAt fixTokBurn.owners 0 0 }

/-- License snapshot used by the renewal fixtures: expires at 1000 with
snapshotted duration 500. -/
def fixLicSnap : LicenseSnapshot :=
  { licenseType := "personal", purchasedAt := 10, expiresAt := 1000, duration := 500 }

/-- Purchase snapshot of a renewable (non-perpetual, unburned) record of
model `0`. -/
def fixSnapRenew : PurchaseSnapshot :=
  { defaultSnapshot with modelId := 0, license := fixLicSnap, royaltyBpsAtPurchase := 30 }

/-- Token state with renewable token `0` owned by `4`. -/
def fixTokRenew : TokenState :=
  { fixTokFresh with
    owners := setAt fixTokFresh.owners 0 4, tokenIdCounter := 1,
    purchaseSnapshots := setAt fixTokFresh.purchaseSnapshots 0 fixSnapRenew }

/-- Registry with three models: `0` (creator 1), `1` (creator 7) and `2`
(creator 8); `marketplace` is `50`, distinct from the royalty-registry
address `200` used below. -/
def fixRegTwo : RegistryState :=
  { fixReg with
    models := setAt (setAt fixReg.models 1 { fixModel0 with creator := 7 }) 2
      { fixModel0 with creator := 8 } }

/-- `fixRegTwo` with the registry's `marketplace` address pointed at the
royalty-registry contract (`200`), the wiring under which
`incrementDerivativeCount` accepts the royalty registry's call. -/
def fixRegTwoWired : RegistryState := { fixRegTwo with marketplace := 200 }

/-- Royalty registry in which the derivative royalty of model `2` has
been deactivated by the administrator. -/
def fixRoyDeact : RoyaltyRegState :=
  { fixRoy with
    derivativeRoyalties := setAt fixRoy.derivativeRoyalties 2 ⟨1, 7, 800, false⟩ }

/-- Royalty registry with an active 1000 bps derivative royalty for
model `2` flowing to creator `7` of original model `1`. -/
def fixRoyAct : RoyaltyRegState :=
  { fixRoy with
    derivativeRoyalties := setAt fixRoy.derivativeRoyalties 2 ⟨1, 7, 1000, true⟩ }

/-- A registry call that is either `updateMetadata` or
`toggleModelActive`, with its full calling context. -/
inductive RegOp : Type
  | update : Nat → Nat → Nat → String → RegOp
  | toggle : Nat → Nat → Nat → RegOp

/-- Run one registry call; a reverted call leaves the state unchanged
(atomicity of a failed transaction). -/
def runRegOp (s : RegistryState) : RegOp → RegistryState
  | .update sender ts modelId newRef =>
      ((updateMetadata s sender ts modelId newRef).toOption).getD s
  | .toggle sender ts modelId =>
      ((toggleModelActive s sender ts modelId).toOption).getD s

/-! ## C1 -/

/-- C1: the claim states that a purchase at total price 300 with a
configured royalty of 1000 bps to recipient `9` pays the creator 270 and
the recipient 30.  The code disagrees: `royaltyInfo` correctly reports
the royalty amount 30, but `purchaseModel` feeds that *amount* into the
`royaltyBps` parameter of `_distributePayment`, which divides by 10000 a
second time (`300 * 30 / 10000 = 0`), so the creator receives the full
300 and the recipient receives nothing — the only outward transfer of
the purchase is `Ev.xfer 1 300`. -/
theorem purchase_distribution_double_division_concrete :
    (royaltyInfo fixMkt 0 300).toOption = some (9, 30) ∧
    (purchaseModel fixReg fixMkt fixTok 2 300 20 0 "commercial" []).toOption.map
        (fun r => (sumXfers r.2.2.2, r.2.2.2.filter (fun e => ! e.isWrite))) =
      some (300, [Ev.xfer 1 300]) ∧
    300 * 1000 / 10000 = 30 := by
  refine ⟨by decide, by decide, by decide⟩

/-! ## C2 -/

/-- C2: the claim states that `purchase` succeeds (creating a new record)
whenever `canPurchase` is true and the tendered amount covers
`getTotalPrice`.  On a fresh deployment with model `0` registered, active
and for sale at total price 300, a purchase tendering exactly 300
nevertheless reverts with "ModelToken: Token does not exist": the
`tokenExists(modelId)` modifier checks the ERC721 token id space against
the model id, and no token has been minted yet (indeed none can ever be,
since minting happens only inside `purchaseModel`). -/
theorem purchase_token_guard_concrete :
    canPurchase fixReg fixMkt 0 = true ∧
    (getTotalPrice fixMkt 0 "commercial" []).toOption = some 300 ∧
    fixTokFresh.owners 0 = 0 ∧
    errMsg (purchaseModel fixReg fixMkt fixTokFresh 2 300 20 0 "commercial" []) =
      some "ModelToken: Token does not exist" := by
  refine ⟨by decide, by decide, by decide, by decide⟩

/-! ## C4 -/

/-- C4 counterexample: the claim states that `incrementSoldCount` called
by any identity other than the license-token contract is rejected and
leaves the sold count unchanged.  The code has no caller check at all:
caller `99` (not a contract collaborator — the marketplace does not even
store the token contract address) succeeds and bumps the count from 3
to 4. -/
theorem incrementSoldCount_any_caller_concrete :
    fixMktSold.soldCounts 7 = 3 ∧
    (incrementSoldCount fixMktSold 99 7).toOption.map (fun m => m.soldCounts 7) =
      some 4 := by
  refine ⟨by decide, by decide⟩

/-- C4 amended: `incrementSoldCount` enforces no caller restriction —
for every marketplace state and every caller it succeeds (as long as the
counter does not overflow) and increments exactly the chosen model's
sold count by one. -/
theorem incrementSoldCount_unrestricted (m : MarketplaceState) (sender modelId : Nat)
    (h : m.soldCounts modelId + 1 < U256) :
    incrementSoldCount m sender modelId =
      .ok { m with soldCounts := setAt m.soldCounts modelId (m.soldCounts modelId + 1) } := by
  simp [incrementSoldCount, cadd, h]

/-- Witness for `incrementSoldCount_unrestricted` at caller `42`,
model `7` of `fixMktSold`. -/
theorem incrementSoldCount_unrestricted_witness :
    incrementSoldCount fixMktSold 42 7 =
      .ok { fixMktSold with
            soldCounts := setAt fixMktSold.soldCounts 7 (fixMktSold.soldCounts 7 + 1) } :=
  incrementSoldCount_unrestricted fixMktSold 42 7 (by decide)

/-! ## C6 -/

/-- C6: `claimRoyalties` fails with the no-royalties revert exactly when
the caller's claimable balance is zero; on a positive balance it returns
the state with the balance zeroed, the claimed amount equal to the
pre-call balance, and a trace in which the balance write precedes the
single outward transfer of exactly that amount; an immediate second
claim fails.  The third conjunct is the direct-tip scenario: a tip of
`v` to a creator with zero prior balance raises the balance to `v`, a
claim then transfers exactly `v` and zeroes the balance, and a repeated
claim fails. -/
theorem claimRoyalties_spec :
    (∀ (roy : RoyaltyRegState) (sender : Nat),
        roy.claimableRoyalties sender = 0 →
        claimRoyalties roy sender = .error "DerivativeRoyalty: No royalties to claim") ∧
    (∀ (roy : RoyaltyRegState) (sender : Nat),
        0 < roy.claimableRoyalties sender →
        claimRoyalties roy sender =
          .ok ({ roy with claimableRoyalties := setAt roy.claimableRoyalties sender 0 },
               roy.claimableRoyalties sender,
               [Ev.write "claimableRoyalties", Ev.xfer sender (roy.claimableRoyalties sender)]) ∧
        claimRoyalties
            { roy with claimableRoyalties := setAt roy.claimableRoyalties sender 0 } sender =
          .error "DerivativeRoyalty: No royalties to claim") ∧
    (∀ (roy : RoyaltyRegState) (payer creator v ts : Nat) (message : String),
        roy.claimableRoyalties creator = 0 → creator ≠ 0 → 0 < v → v < U256 →
        payer ≠ creator →
        ((payDirectRoyalty roy payer v ts creator message).bind fun roy1 =>
            (claimRoyalties roy1 creator).map fun r =>
              (roy1.claimableRoyalties creator, r.2.1, r.1.claimableRoyalties creator,
               errMsg (claimRoyalties r.1 creator))) =
          .ok (v, v, 0, some "DerivativeRoyalty: No royalties to claim")) := by
  refine ⟨?_, ?_, ?_⟩
  · intro roy sender h
    simp [claimRoyalties, h]
  · intro roy sender h
    refine ⟨?_, ?_⟩
    · simp [claimRoyalties, h]
    · simp [claimRoyalties, setAt]
  · intro roy payer creator v ts message h0 hc hv hvU hpc
    have hv' : v ≠ 0 := Nat.pos_iff_ne_zero.mp hv
    have hcp : creator ≠ payer := fun h => hpc h.symm
    simp [payDirectRoyalty, claimRoyalties, cadd, setAt, errMsg, h0, hc, hv', hcp, hv, hvU,
      Except.bind, Except.map]

/-- Witness for `claimRoyalties_spec`: balance 0 rejects; tip of 50 from
payer `3` to creator `7` then claim transfers exactly 50 and a second
claim is rejected. -/
theorem claimRoyalties_spec_witness :
    claimRoyalties fixRoy 7 = .error "DerivativeRoyalty: No royalties to claim" ∧
    ((payDirectRoyalty fixRoy 3 50 60 7 "great work").bind fun roy1 =>
        (claimRoyalties roy1 7).map fun r =>
          (roy1.claimableRoyalties 7, r.2.1, r.1.claimableRoyalties 7,
           errMsg (claimRoyalties r.1 7))) =
      .ok (50, 50, 0, some "DerivativeRoyalty: No royalties to claim") := by
  refine ⟨claimRoyalties_spec.1 fixRoy 7 (by decide),
          claimRoyalties_spec.2.2 fixRoy 3 7 50 60 "great work"
            (by decide) (by decide) (by decide) (by decide) (by decide)⟩

/-! ## C7 -/

/-- Single-step preservation: one `updateMetadata` or `toggleModelActive`
call (successful or reverted) never changes any model's `creator` or
`createdAt`. -/
theorem runRegOp_preserves (s : RegistryState) (op : RegOp) (m : Nat) :
    ((runRegOp s op).models m).creator = (s.models m).creator ∧
    ((runRegOp s op).models m).createdAt = (s.models m).createdAt := by
  cases op with
  | update sender ts modelId newRef =>
      by_cases h1 : (s.models modelId).exists_ = false
      · simp [runRegOp, updateMetadata, h1, Except.toOption]
      · by_cases h2 : (s.models modelId).creator ≠ sender
        · simp [runRegOp, updateMetadata, h1, h2, Except.toOption]
        · by_cases h3 : newRef = ""
          · simp [runRegOp, updateMetadata, h1, h2, h3, Except.toOption]
          · by_cases h4 : m = modelId <;>
              simp [runRegOp, updateMetadata, h1, h2, h3, setAt, h4, Except.toOption]
  | toggle sender ts modelId =>
      by_cases h1 : (s.models modelId).exists_ = false
      · simp [runRegOp, toggleModelActive, h1, Except.toOption]
      · by_cases h2 : (s.models modelId).creator ≠ sender
        · simp [runRegOp, toggleModelActive, h1, h2, Except.toOption]
        · by_cases h4 : m = modelId <;>
            simp [runRegOp, toggleModelActive, h1, h2, setAt, h4, Except.toOption]

/-- C7: across any sequence of `updateMetadata`/`toggleModelActive`
calls every model's `creator` and `createdAt` are invariant; a
successful `updateMetadata` rewrites exactly the metadata reference and
the update timestamp of the targeted model and nothing else in the
registry; a successful `toggleModelActive` flips exactly the active flag
of the targeted model and nothing else. -/
theorem registry_creator_createdAt_frame :
    (∀ (s : RegistryState) (ops : List RegOp) (m : Nat),
        ((List.foldl runRegOp s ops).models m).creator = (s.models m).creator ∧
        ((List.foldl runRegOp s ops).models m).createdAt = (s.models m).createdAt) ∧
    (∀ (s : RegistryState) (sender ts modelId : Nat) (newRef : String)
        (s' : RegistryState), updateMetadata s sender ts modelId newRef = .ok s' →
        s'.models modelId =
          { s.models modelId with metadataIPFS := newRef, updatedAt := ts } ∧
        (∀ k, k ≠ modelId → s'.models k = s.models k) ∧
        s'.modelIdCounter = s.modelIdCounter ∧ s'.creatorModels = s.creatorModels ∧
        s'.modelDerivatives = s.modelDerivatives ∧ s'.marketplace = s.marketplace ∧
        s'.derivativeRoyaltyRegistry = s.derivativeRoyaltyRegistry ∧
        s'.owner = s.owner) ∧
    (∀ (s : RegistryState) (sender ts modelId : Nat) (s' : RegistryState),
        toggleModelActive s sender ts modelId = .ok s' →
        s'.models modelId =
          { s.models modelId with active := ! (s.models modelId).active } ∧
        (∀ k, k ≠ modelId → s'.models k = s.models k) ∧
        s'.modelIdCounter = s.modelIdCounter ∧ s'.creatorModels = s.creatorModels ∧
        s'.modelDerivatives = s.modelDerivatives ∧ s'.marketplace = s.marketplace ∧
        s'.derivativeRoyaltyRegistry = s.derivativeRoyaltyRegistry ∧
        s'.owner = s.owner) := by
  refine ⟨?_, ?_, ?_⟩
  · intro s ops
    induction ops generalizing s with
    | nil => intro m; exact ⟨rfl, rfl⟩
    | cons op rest ih =>
        intro m
        have h1 := runRegOp_preserves s op m
        have h2 := ih (runRegOp s op) m
        simp only [List.foldl_cons]
        exact ⟨h2.1.trans h1.1, h2.2.trans h1.2⟩
  · intro s sender ts modelId newRef s' h
    rw [updateMetadata] at h
    split at h
    · exact absurd h (by simp)
    · split at h
      · exact absurd h (by simp)
      · split at h
        · exact absurd h (by simp)
        · have := (Except.ok.injEq _ _).mp h
          subst this
          refine ⟨by simp [setAt], fun k hk => by simp [setAt, hk], rfl, rfl, rfl, rfl, rfl, rfl⟩
  · intro s sender ts modelId s' h
    rw [toggleModelActive] at h
    split at h
    · exact absurd h (by simp)
    · split at h
      · exact absurd h (by simp)
      · have := (Except.ok.injEq _ _).mp h
        subst this
        refine ⟨by simp [setAt], fun k hk => by simp [setAt, hk], rfl, rfl, rfl, rfl, rfl, rfl⟩

/-- Witness for `registry_creator_createdAt_frame`: after an update and
a toggle on `fixReg`, model 0 keeps creator 1 and creation timestamp 10,
and the frame facts hold at a concrete successful update and toggle. -/
theorem registry_creator_createdAt_frame_witness :
    ((List.foldl runRegOp fixReg [RegOp.update 1 30 0 "QmNew", RegOp.toggle 1 31 0]).models 0).creator = 1 ∧
    ((List.foldl runRegOp fixReg [RegOp.update 1 30 0 "QmNew", RegOp.toggle 1 31 0]).models 0).createdAt = 10 ∧
    (updateMetadata fixReg 1 30 0 "QmNew").toOption.map (fun s2 => s2.models 0) =
      some { fixReg.models 0 with metadataIPFS := "QmNew", updatedAt := 30 } ∧
    (toggleModelActive fixReg 1 31 0).toOption.map (fun s2 => s2.models 0) =
      some { fixReg.models 0 with active := ! (fixReg.models 0).active } := by
  refine ⟨?_, ?_, ?_, ?_⟩
  · rw [(registry_creator_createdAt_frame.1 fixReg
      [RegOp.update 1 30 0 "QmNew", RegOp.toggle 1 31 0] 0).1]
    decide
  · rw [(registry_creator_createdAt_frame.1 fixReg
      [RegOp.update 1 30 0 "QmNew", RegOp.toggle 1 31 0] 0).2]
    decide
  · cases H : updateMetadata fixReg 1 30 0 "QmNew" with
    | error e =>
        have hx : errMsg (updateMetadata fixReg 1 30 0 "QmNew") = none := by decide
        rw [H] at hx
        simp [errMsg] at hx
    | ok s2 =>
        have h := (registry_creator_createdAt_frame.2.1 fixReg 1 30 0 "QmNew" s2 H).1
        simp [Except.toOption, h]
  · cases H : toggleModelActive fixReg 1 31 0 with
    | error e =>
        have hx : errMsg (toggleModelActive fixReg 1 31 0) = none := by decide
        rw [H] at hx
        simp [errMsg] at hx
    | ok s2 =>
        have h := (registry_creator_createdAt_frame.2.2 fixReg 1 31 0 s2 H).1
        simp [Except.toOption, h]

/-! ## C3 -/

/-- C3 counterexample: the claim states that the download key set by the
first burn is immutable thereafter — no subsequent operation by any
caller changes it.  But after burning token `0` (key `"key_0_100_0"`),
the contract administrator's `setDownloadKey` overwrites the key. -/
theorem downloadKey_admin_overwrite_concrete :
    ((burnForDownload fixTokBurn kecZero 4 100 0).toOption.map
        (fun r => ((r.1.purchaseSnapshots 0).burned, (r.1.purchaseSnapshots 0).downloadKey, r.2))) =
      some (true, "key_0_100_0", "key_0_100_0") ∧
    (((burnForDownload fixTokBurn kecZero 4 100 0).bind
        (fun r => setDownloadKey r.1 9 0 "overwritten")).toOption.map
        (fun t => (t.purchaseSnapshots 0).downloadKey)) = some "overwritten" ∧
    ("overwritten" : String) ≠ "key_0_100_0" := by
  refine ⟨by decide, by decide, by decide⟩

/-- C3 amended: after a successful `burnForDownload` the record is
terminal — the ERC721 owner is cleared, the snapshot is burned and holds
the returned key, a second `burnForDownload` fails (the token no longer
exists, which is why the revert is the nonexistent-token one rather than
"Already burned"), every transfer fails, and the key cannot be changed
by anyone except the contract administrator through `setDownloadKey`
(which can overwrite it, per the counterexample). -/
theorem burned_record_terminal
    (tok : TokenState) (kec kec2 : Nat → Nat → Nat → Nat)
    (sender ts tokenId : Nat) (tok1 : TokenState) (key : String)
    (h : burnForDownload tok kec sender ts tokenId = .ok (tok1, key)) :
    tok1.owners tokenId = 0 ∧
    (tok1.purchaseSnapshots tokenId).burned = true ∧
    (tok1.purchaseSnapshots tokenId).downloadKey = key ∧
    (∀ s2 t2, burnForDownload tok1 kec2 s2 t2 tokenId =
      .error "ModelToken: Token does not exist") ∧
    (∀ caller from_ toAddr, (transferFrom tok1 caller from_ toAddr tokenId).isOk = false) ∧
    (∀ caller k, caller ≠ tok1.owner →
      setDownloadKey tok1 caller tokenId k = .error "OwnableUnauthorizedAccount") := by
  rw [burnForDownload] at h
  split at h
  · exact absurd h (by simp)
  · split at h
    · exact absurd h (by simp)
    · split at h
      · exact absurd h (by simp)
      · split at h
        · exact absurd h (by simp)
        · simp only [Except.ok.injEq, Prod.mk.injEq] at h
          obtain ⟨h3, h4⟩ := h
          subst h3
          subst h4
          refine ⟨by simp [setAt], by simp [setAt], by simp [setAt], ?_, ?_, ?_⟩
          · intro s2 t2
            simp [burnForDownload, setAt]
          · intro caller from_ toAddr
            by_cases hto : toAddr = 0 <;>
              simp [transferFrom, setAt, hto, Except.isOk, Except.toBool]
          · intro caller k hc
            simp [setDownloadKey, hc]

/-- Witness for `burned_record_terminal` at the concrete burn of token
`0` of `fixTokBurn`. -/
theorem burned_record_terminal_witness :
    fixTokBurned.owners 0 = 0 ∧
    (fixTokBurned.purchaseSnapshots 0).downloadKey = "key_0_100_0" ∧
    burnForDownload fixTokBurned kecZero 4 101 0 = .error "ModelToken: Token does not exist" ∧
    (transferFrom fixTokBurned 4 4 5 0).isOk = false ∧
    setDownloadKey fixTokBurned 8 0 "x" = .error "OwnableUnauthorizedAccount" := by
  have h : burnForDownload fixTokBurn kecZero 4 100 0 = .ok (fixTokBurned, "key_0_100_0") := by
    rfl
  have H := burned_record_terminal fixTokBurn kecZero kecZero 4 100 0 fixTokBurned
    "key_0_100_0" h
  exact ⟨H.1, H.2.2.1, H.2.2.2.1 4 101, H.2.2.2.2.1 4 4 5, H.2.2.2.2.2 8 "x" (by decide)⟩

/-! ## C5 -/

/-- C5: on a non-perpetual, unburned record, a successful renewal sets
the new expiry to the old expiry plus the duration snapshotted in the
record — for an arbitrary current marketplace configuration `mkt`, whose
durations do not occur in the result at all (only its price table is
consulted, for the payment check).  The snapshotted duration itself is
unchanged. -/
theorem renewLicense_additive_expiry
    (reg : RegistryState) (mkt : MarketplaceState) (tok : TokenState)
    (sender value ts tokenId p : Nat)
    (hown : tok.owners tokenId = sender) (hsz : sender ≠ 0)
    (hexp : 0 < (tok.purchaseSnapshots tokenId).license.expiresAt)
    (hburn : (tok.purchaseSnapshots tokenId).burned = false)
    (hprice : getLicensePrice mkt (tok.purchaseSnapshots tokenId).modelId
        (tok.purchaseSnapshots tokenId).license.licenseType = .ok p)
    (hval : p ≤ value)
    (hof1 : (tok.purchaseSnapshots tokenId).license.expiresAt +
        (tok.purchaseSnapshots tokenId).license.duration < U256)
    (hof2 : p * (tok.purchaseSnapshots tokenId).royaltyBpsAtPurchase < U256)
    (hle : p * (tok.purchaseSnapshots tokenId).royaltyBpsAtPurchase / 10000 ≤ p)
    (hof3 : p * (mkt.royalties (tok.purchaseSnapshots tokenId).modelId).bps < U256) :
    (renewLicense reg mkt tok sender value ts tokenId).map
        (fun r => ((r.1.purchaseSnapshots tokenId).license.expiresAt,
                   (r.1.purchaseSnapshots tokenId).license.duration)) =
      .ok ((tok.purchaseSnapshots tokenId).license.expiresAt +
             (tok.purchaseSnapshots tokenId).license.duration,
           (tok.purchaseSnapshots tokenId).license.duration) := by
  have hexp' : ¬ (tok.purchaseSnapshots tokenId).license.expiresAt = 0 :=
    Nat.pos_iff_ne_zero.mp hexp
  have hvaln : ¬ value < p := Nat.not_lt.mpr hval
  have hsz' : ¬ tok.owners tokenId = 0 := by rw [hown]; exact hsz
  have hown2 : ¬ tok.owners tokenId ≠ sender := by simp [hown]
  simp only [renewLicense, hsz', if_false, hown2, ne_eq, not_true_eq_false, hexp', hburn,
    hprice, hvaln, cadd, cmul, csub, hof1, hof2, hle, if_true, ite_false, ite_true,
    Bool.false_eq_true, royaltyInfo]
  split_ifs <;> simp_all [Except.map, setAt, hof3]

/-- Witness for `renewLicense_additive_expiry`: renewing token `0` of
`fixTokRenew` (expiry 1000, snapshotted duration 500) against `fixMkt`
(personal price 100) yields expiry 1500. -/
theorem renewLicense_additive_expiry_witness :
    (renewLicense fixReg fixMkt fixTokRenew 4 100 2000 0).map
        (fun r => ((r.1.purchaseSnapshots 0).license.expiresAt,
                   (r.1.purchaseSnapshots 0).license.duration)) =
      .ok (1500, 500) := by
  have H := renewLicense_additive_expiry fixReg fixMkt fixTokRenew 4 100 2000 0 100
    (by decide) (by decide) (by decide) (by decide) (by rfl) (by decide)
    (by decide) (by decide) (by decide) (by decide)
  simpa using H

/-! ## Shared inversion lemmas for the checked arithmetic and payment
distribution -/

/-- Successful checked addition returns the exact sum. -/
theorem cadd_ok (a b m : Nat) (h : cadd a b = .ok m) : m = a + b := by
  rw [cadd] at h
  split at h
  · exact ((Except.ok.injEq _ _).mp h).symm
  · exact absurd h (by simp)

/-- Successful checked multiplication returns the exact product. -/
theorem cmul_ok (a b m : Nat) (h : cmul a b = .ok m) : m = a * b := by
  rw [cmul] at h
  split at h
  · exact ((Except.ok.injEq _ _).mp h).symm
  · exact absurd h (by simp)

/-- Successful checked subtraction returns the exact difference, and the
subtrahend was no larger than the minuend. -/
theorem csub_ok (a b m : Nat) (h : csub a b = .ok m) : m = a - b ∧ b ≤ a := by
  rw [csub] at h
  split at h
  · exact ⟨((Except.ok.injEq _ _).mp h).symm, by assumption⟩
  · exact absurd h (by simp)

/-- `royaltyInfo` never reports a positive royalty amount together with a
zero recipient. -/
theorem royaltyInfo_ok_zero (m : MarketplaceState) (modelId salePrice : Nat)
    (ri : Nat × Nat) (h : royaltyInfo m modelId salePrice = .ok ri)
    (hz : ri.1 = 0) : ri.2 = 0 := by
  rw [royaltyInfo] at h
  split at h
  · rw [← ((Except.ok.injEq _ _).mp h)]
  · split at h
    · exact absurd h (by simp)
    · rw [← ((Except.ok.injEq _ _).mp h)] at hz
      simp at hz
      exact absurd hz (by assumption)

/-- Case analysis of a successful `_distributePayment`: the royalty part
is at most the total, and the transfer list is either the single creator
transfer (when the royalty amount is zero or the recipient is the zero
address) or the creator transfer followed by the royalty transfer. -/
theorem distributePayment_cases (c P rr b : Nat) (dtr : List Ev)
    (h : distributePayment c P rr b = .ok dtr) :
    P * b / 10000 ≤ P ∧
    ((dtr = [Ev.xfer c (P - P * b / 10000)] ∧ ¬(0 < P * b / 10000 ∧ rr ≠ 0)) ∨
     (dtr = [Ev.xfer c (P - P * b / 10000), Ev.xfer rr (P * b / 10000)] ∧
        0 < P * b / 10000 ∧ rr ≠ 0)) := by
  rw [distributePayment] at h
  split at h
  · exact absurd h (by simp)
  · rename_i m hm
    rw [cmul_ok _ _ _ hm] at h
    dsimp only [] at h
    split at h
    · exact absurd h (by simp)
    · rename_i ca hca
      obtain ⟨hca1, hca2⟩ := csub_ok _ _ _ hca
      subst hca1
      refine ⟨hca2, ?_⟩
      split at h
      · exact Or.inr ⟨((Except.ok.injEq _ _).mp h).symm, by assumption⟩
      · exact Or.inl ⟨((Except.ok.injEq _ _).mp h).symm, by assumption⟩

/-! ## C10 -/

/-- C10 counterexample: the claim states that `setDerivativeRoyalty`
succeeds for any caller whenever both referenced assets exist and the
rate is within the 2000 bps cap.  In the natural deployment — a registry
whose `marketplace` address (50) is not the royalty-registry contract
(200) — both models exist and 500 bps is within the cap, yet the call
reverts: the notification `registry.incrementDerivativeCount` is
restricted to the marketplace address and sees the royalty registry as
`msg.sender`. -/
theorem setDerivativeRoyalty_wiring_concrete :
    (fixRegTwo.models 2).exists_ = true ∧ (fixRegTwo.models 1).exists_ = true ∧
    (500 : Nat) ≤ MAX_DERIVATIVE_ROYALTY_BPS ∧ fixRegTwo.marketplace ≠ 200 ∧
    errMsg (setDerivativeRoyalty fixRegTwo fixRoy 200 3 2 1 500) =
      some "ModelRegistry: Only marketplace can call" := by
  refine ⟨by decide, by decide, by decide, by decide, by decide⟩

/-- C10 amended: provided the registry's `marketplace` address is wired
to the royalty-registry contract itself (so that the derivative-counter
notification passes), `setDerivativeRoyalty` succeeds for *every* caller
whenever both assets exist, the original's creator is nonzero and the
rate is within the cap; it unconditionally overwrites the derivative's
configuration with the fresh payee, rate, and `active := true` — in
particular a previously deactivated royalty (any prior `roy` state) is
reactivated and rewritten by an arbitrary identity — and increments the
original's derivative counter. -/
theorem setDerivativeRoyalty_open_access
    (reg : RegistryState) (roy : RoyaltyRegState)
    (selfAddr caller derivId origId bps : Nat)
    (h1 : (reg.models derivId).exists_ = true)
    (h2 : (reg.models origId).exists_ = true)
    (h3 : bps ≤ MAX_DERIVATIVE_ROYALTY_BPS)
    (h4 : (reg.models origId).creator ≠ 0)
    (h5 : selfAddr = reg.marketplace)
    (h6 : (reg.models origId).derivativeCount + 1 < U256) :
    (setDerivativeRoyalty reg roy selfAddr caller derivId origId bps).map
        (fun r => (r.2.derivativeRoyalties derivId, (r.1.models origId).derivativeCount)) =
      .ok (⟨origId, (reg.models origId).creator, bps, true⟩,
           (reg.models origId).derivativeCount + 1) := by
  subst h5
  have h3' : ¬ MAX_DERIVATIVE_ROYALTY_BPS < bps := Nat.not_lt.mpr h3
  simp [setDerivativeRoyalty, incrementDerivativeCount, h1, h2, h3', h4, cadd, h6,
    setAt, Except.map]

/-- Witness for `setDerivativeRoyalty_open_access`: caller `3` (neither
creator nor administrator) reactivates and rewrites the deactivated
derivative royalty of model `2` in `fixRoyDeact`. -/
theorem setDerivativeRoyalty_open_access_witness :
    (fixRoyDeact.derivativeRoyalties 2).active = false ∧
    (setDerivativeRoyalty fixRegTwoWired fixRoyDeact 200 3 2 1 500).map
        (fun r => (r.2.derivativeRoyalties 2, (r.1.models 1).derivativeCount)) =
      .ok (⟨1, 7, 500, true⟩, 1) := by
  refine ⟨by decide, ?_⟩
  exact setDerivativeRoyalty_open_access fixRegTwoWired fixRoyDeact 200 3 2 1 500
    (by decide) (by decide) (by decide) (by decide) (by rfl) (by decide)

/-! ## C8 -/

/-- C8 counterexample: the claim states that in `payDerivativeRoyalty`
every internal state mutation — including audit-record appends — occurs
before any outward fund transfer.  On a concrete successful call the
trace shows the payment-counter bump, the audit-record write and the
payee index append all *after* the transfer of the remainder to the
caller, so the checks-effects-interactions predicate fails. -/
theorem payDerivativeRoyalty_write_after_transfer_concrete :
    (payDerivativeRoyalty fixRegTwo fixRoyAct 5 100 50 2 100).toOption.map
        (fun r => (r.2, ceiHolds r.2)) =
      some ([Ev.write "claimableRoyalties", Ev.xfer 5 90, Ev.write "paymentIdCounter",
             Ev.write "royaltyPayments", Ev.write "creatorPayments"], false) := by
  decide

/-- C8 amended: `purchaseModel` does satisfy the discipline — on every
successful purchase no storage write follows an outward transfer — while
`payDerivativeRoyalty` commits only the claimable-balance credit before
its outward transfer and then appends the payment counter, the audit
record and the payee index *after* the transfer, as its trace shape
shows on every successful call. -/
theorem cei_ordering_amended :
    (∀ (reg : RegistryState) (mkt : MarketplaceState) (tok : TokenState)
        (sender value ts modelId : Nat) (licenseType : String) (variationIds : List Nat)
        (r : MarketplaceState × TokenState × Nat × List Ev),
        purchaseModel reg mkt tok sender value ts modelId licenseType variationIds = .ok r →
        ceiHolds r.2.2.2 = true) ∧
    (∀ (reg : RegistryState) (roy : RoyaltyRegState)
        (sender value ts derivId salePrice : Nat) (r : RoyaltyRegState × List Ev),
        payDerivativeRoyalty reg roy sender value ts derivId salePrice = .ok r →
        r.2 = [Ev.write "claimableRoyalties",
               Ev.xfer sender
                 (salePrice - salePrice * (roy.derivativeRoyalties derivId).royaltyBps / 10000),
               Ev.write "paymentIdCounter", Ev.write "royaltyPayments",
               Ev.write "creatorPayments"]) := by
  constructor
  · intro reg mkt tok sender value ts modelId licenseType variationIds r h
    rw [purchaseModel] at h
    dsimp only [] at h
    split at h
    · exact absurd h (by simp)
    split at h
    · exact absurd h (by simp)
    split at h
    · exact absurd h (by simp)
    split at h
    · exact absurd h (by simp)
    split at h
    · exact absurd h (by simp)
    split at h
    · exact absurd h (by simp)
    split at h
    · exact absurd h (by simp)
    split at h
    · exact absurd h (by simp)
    split at h
    · exact absurd h (by simp)
    split at h
    · exact absurd h (by simp)
    split at h
    · exact absurd h (by simp)
    split at h
    · exact absurd h (by simp)
    rename_i dtr hdtr
    obtain ⟨hle, hcases⟩ := distributePayment_cases _ _ _ _ dtr hdtr
    have hr := (Except.ok.injEq _ _).mp h
    subst hr
    rcases hcases with ⟨hd, _⟩ | ⟨hd, _⟩ <;> subst hd <;>
      simp [ceiHolds, Ev.isWrite]
  · intro reg roy sender value ts derivId salePrice r h
    rw [payDerivativeRoyalty] at h
    dsimp only [] at h
    split at h
    · exact absurd h (by simp)
    split at h
    · exact absurd h (by simp)
    split at h
    · exact absurd h (by simp)
    split at h
    · exact absurd h (by simp)
    rename_i m hm
    split at h
    · exact absurd h (by simp)
    rename_i rem hrem
    split at h
    · exact absurd h (by simp)
    rename_i bal hbal
    have hr := (Except.ok.injEq _ _).mp h
    subst hr
    rw [cmul_ok _ _ _ hm] at hrem
    obtain ⟨h1, _⟩ := csub_ok _ _ _ hrem
    subst h1
    rfl

/-- Witness for `cei_ordering_amended`: a concrete successful purchase
has a write-free tail after its transfer, and the concrete
`payDerivativeRoyalty` call exhibits exactly the
credit-transfer-then-audit trace. -/
theorem cei_ordering_amended_witness :
    ((purchaseModel fixReg fixMkt fixTok 2 300 20 0 "commercial" []).toOption.map
        (fun r => ceiHolds r.2.2.2)) = some true ∧
    ((payDerivativeRoyalty fixRegTwo fixRoyAct 5 100 50 2 100).toOption.map
        (fun r => r.2)) =
      some [Ev.write "claimableRoyalties", Ev.xfer 5 90, Ev.write "paymentIdCounter",
            Ev.write "royaltyPayments", Ev.write "creatorPayments"] := by
  constructor
  · cases H : purchaseModel fixReg fixMkt fixTok 2 300 20 0 "commercial" [] with
    | error e =>
        have hx : errMsg (purchaseModel fixReg fixMkt fixTok 2 300 20 0 "commercial" []) =
            none := by decide
        rw [H] at hx
        simp [errMsg] at hx
    | ok r =>
        simp [Except.toOption,
          cei_ordering_amended.1 fixReg fixMkt fixTok 2 300 20 0 "commercial" [] r H]
  · cases H : payDerivativeRoyalty fixRegTwo fixRoyAct 5 100 50 2 100 with
    | error e =>
        have hx : errMsg (payDerivativeRoyalty fixRegTwo fixRoyAct 5 100 50 2 100) =
            none := by decide
        rw [H] at hx
        simp [errMsg] at hx
    | ok r =>
        have ht := cei_ordering_amended.2 fixRegTwo fixRoyAct 5 100 50 2 100 r H
        simp [Except.toOption, ht]
        decide

/-! ## C9 -/

/-- If `royaltyInfo` reports a zero recipient, the configured recipient
really is the zero address. -/
theorem royaltyInfo_ok_recipient_zero (m : MarketplaceState) (modelId salePrice : Nat)
    (ri : Nat × Nat) (h : royaltyInfo m modelId salePrice = .ok ri)
    (hz : ri.1 = 0) : (m.royalties modelId).recipient = 0 := by
  rw [royaltyInfo] at h
  split at h
  · assumption
  · split at h
    · exact absurd h (by simp)
    · rw [← (Except.ok.injEq _ _).mp h] at hz
      simp at hz
      exact absurd hz (by assumption)

/-- `purchaseModel` reads the tendered amount only in the payment check:
any two amounts at or above the total price give identical results. -/
theorem purchaseModel_value_irrel
    (reg : RegistryState) (mkt : MarketplaceState) (tok : TokenState)
    (sender value value2 ts modelId : Nat) (licenseType : String)
    (variationIds : List Nat) (P : Nat)
    (hP : getTotalPrice mkt modelId licenseType variationIds = .ok P)
    (hv : P ≤ value) (hv2 : P ≤ value2) :
    purchaseModel reg mkt tok sender value ts modelId licenseType variationIds =
      purchaseModel reg mkt tok sender value2 ts modelId licenseType variationIds := by
  rw [purchaseModel, purchaseModel, hP]
  simp [Nat.not_lt.mpr hv, Nat.not_lt.mpr hv2]

/-- `renewLicense` reads the tendered amount only in the payment check:
any two amounts at or above the current tier price give identical
results. -/
theorem renewLicense_value_irrel
    (reg : RegistryState) (mkt : MarketplaceState) (tok : TokenState)
    (sender value value2 ts tokenId p : Nat)
    (hp : getLicensePrice mkt (tok.purchaseSnapshots tokenId).modelId
        (tok.purchaseSnapshots tokenId).license.licenseType = .ok p)
    (hv : p ≤ value) (hv2 : p ≤ value2) :
    renewLicense reg mkt tok sender value ts tokenId =
      renewLicense reg mkt tok sender value2 ts tokenId := by
  rw [renewLicense, renewLicense]
  dsimp only []
  rw [hp]
  simp [Nat.not_lt.mpr hv, Nat.not_lt.mpr hv2]

/-- C9: on every successful `purchaseModel` the outward transfers sum to
exactly the computed total price and the result is unchanged for any
tendered amount at or above that price (so a strictly larger tender is
neither refunded nor distributed — the surplus stays with the license
contract); on every successful `renewLicense` the outward transfers sum
to at most the current tier price, to exactly that price whenever a
positive snapshotted royalty portion implies a configured recipient
(which holds in every state reachable through `setRoyalty`), and the
result is likewise independent of the tendered amount beyond the
payment check. -/
theorem excess_payment_retained :
    (∀ (reg : RegistryState) (mkt : MarketplaceState) (tok : TokenState)
        (sender value ts modelId : Nat) (licenseType : String) (variationIds : List Nat)
        (P : Nat) (r : MarketplaceState × TokenState × Nat × List Ev),
        getTotalPrice mkt modelId licenseType variationIds = .ok P →
        purchaseModel reg mkt tok sender value ts modelId licenseType variationIds = .ok r →
        sumXfers r.2.2.2 = P ∧
        (∀ value2, P ≤ value2 →
          purchaseModel reg mkt tok sender value2 ts modelId licenseType variationIds =
            .ok r)) ∧
    (∀ (reg : RegistryState) (mkt : MarketplaceState) (tok : TokenState)
        (sender value ts tokenId : Nat) (p : Nat) (r : TokenState × List Ev),
        getLicensePrice mkt (tok.purchaseSnapshots tokenId).modelId
            (tok.purchaseSnapshots tokenId).license.licenseType = .ok p →
        renewLicense reg mkt tok sender value ts tokenId = .ok r →
        sumXfers r.2 ≤ p ∧
        ((0 < p * (tok.purchaseSnapshots tokenId).royaltyBpsAtPurchase / 10000 →
            (mkt.royalties (tok.purchaseSnapshots tokenId).modelId).recipient ≠ 0) →
          sumXfers r.2 = p) ∧
        (∀ value2, p ≤ value2 →
          renewLicense reg mkt tok sender value2 ts tokenId = .ok r)) := by
  constructor
  · intro reg mkt tok sender value ts modelId licenseType variationIds P r hP h
    have horig := h
    rw [purchaseModel] at h
    dsimp only [] at h
    split at h
    · exact absurd h (by simp)
    split at h
    · exact absurd h (by simp)
    split at h
    · exact absurd h (by simp)
    rename_i totalPrice htp
    split at h
    · exact absurd h (by simp)
    rename_i hvlt
    split at h
    · exact absurd h (by simp)
    rename_i ri hri
    split at h
    · exact absurd h (by simp)
    rename_i duration hdur
    split at h
    · exact absurd h (by simp)
    rename_i expiresAt hexpiry
    split at h
    · exact absurd h (by simp)
    rename_i hsender
    split at h
    · exact absurd h (by simp)
    rename_i howners
    split at h
    · exact absurd h (by simp)
    rename_i mpc hmpc
    split at h
    · exact absurd h (by simp)
    rename_i sc hsc
    split at h
    · exact absurd h (by simp)
    rename_i dtr hdtr
    rw [hP] at htp
    have hTP := (Except.ok.injEq _ _).mp htp
    subst hTP
    have hr := (Except.ok.injEq _ _).mp h
    subst hr
    obtain ⟨hle2, hcases⟩ := distributePayment_cases _ _ _ _ dtr hdtr
    constructor
    · rcases hcases with ⟨hd, hcond⟩ | ⟨hd, hcond⟩
      · subst hd
        simp only [sumXfers, List.cons_append, List.nil_append]
        rcases not_and_or.mp hcond with hc | hc
        · have h0 : P * ri.2 / 10000 = 0 := Nat.eq_zero_of_not_pos hc
          omega
        · have hz : ri.1 = 0 := not_ne_iff.mp hc
          have h0 := royaltyInfo_ok_zero mkt modelId P ri hri hz
          rw [h0]
          simp
      · subst hd
        simp only [sumXfers, List.cons_append, List.nil_append]
        omega
    · intro value2 hv2
      rw [purchaseModel_value_irrel reg mkt tok sender value2 value ts modelId
        licenseType variationIds P hP hv2 (Nat.not_lt.mp hvlt)]
      exact horig
  · intro reg mkt tok sender value ts tokenId p r hp h
    have horig := h
    rw [renewLicense] at h
    dsimp only [] at h
    split at h
    · exact absurd h (by simp)
    split at h
    · exact absurd h (by simp)
    split at h
    · exact absurd h (by simp)
    split at h
    · exact absurd h (by simp)
    split at h
    · exact absurd h (by simp)
    rename_i renewalPrice hrp
    split at h
    · exact absurd h (by simp)
    rename_i hvlt
    split at h
    · exact absurd h (by simp)
    rename_i newExpiry hne
    split at h
    · exact absurd h (by simp)
    rename_i m hm
    split at h
    · exact absurd h (by simp)
    rename_i creatorAmount hca
    rw [hp] at hrp
    have hRP := (Except.ok.injEq _ _).mp hrp
    subst hRP
    rw [cmul_ok _ _ _ hm] at hca h
    obtain ⟨hca1, hca2⟩ := csub_ok _ _ _ hca
    subst hca1
    have hvle : p ≤ value := Nat.not_lt.mp hvlt
    split at h
    · split at h
      · exact absurd h (by simp)
      rename_i ri hri
      split at h
      · have hr := (Except.ok.injEq _ _).mp h
        subst hr
        refine ⟨?_, ?_, ?_⟩
        · simp only [sumXfers]
          omega
        · intro _
          simp only [sumXfers]
          omega
        · intro value2 hv2
          rw [renewLicense_value_irrel reg mkt tok sender value2 value ts tokenId p hp
            hv2 hvle]
          exact horig
      · rename_i hrz
        have hr := (Except.ok.injEq _ _).mp h
        subst hr
        have hz : ri.1 = 0 := not_ne_iff.mp hrz
        have hrec := royaltyInfo_ok_recipient_zero mkt
          (tok.purchaseSnapshots tokenId).modelId p ri hri hz
        refine ⟨?_, ?_, ?_⟩
        · simp only [sumXfers]
          omega
        · intro hlink
          exact absurd hrec (hlink (by assumption))
        · intro value2 hv2
          rw [renewLicense_value_irrel reg mkt tok sender value2 value ts tokenId p hp
            hv2 hvle]
          exact horig
    · rename_i hnra
      have hr := (Except.ok.injEq _ _).mp h
      subst hr
      have h0 : p * (tok.purchaseSnapshots tokenId).royaltyBpsAtPurchase / 10000 = 0 :=
        Nat.eq_zero_of_not_pos hnra
      refine ⟨?_, ?_, ?_⟩
      · simp only [sumXfers]
        omega
      · intro _
        simp only [sumXfers]
        omega
      · intro value2 hv2
        rw [renewLicense_value_irrel reg mkt tok sender value2 value ts tokenId p hp
          hv2 hvle]
        exact horig

/-- Witness for `excess_payment_retained`: overpaying 350 for the
300-priced commercial purchase distributes exactly 300 and gives the
same result as tendering 300; overpaying 120 for the 100-priced renewal
distributes exactly 100 and equals tendering 100. -/
theorem excess_payment_retained_witness :
    ((purchaseModel fixReg fixMkt fixTok 2 350 20 0 "commercial" []).toOption.map
        (fun r => sumXfers r.2.2.2)) = some 300 ∧
    purchaseModel fixReg fixMkt fixTok 2 350 20 0 "commercial" [] =
      purchaseModel fixReg fixMkt fixTok 2 300 20 0 "commercial" [] ∧
    ((renewLicense fixReg fixMkt fixTokRenew 4 120 2000 0).toOption.map
        (fun r => sumXfers r.2)) = some 100 ∧
    renewLicense fixReg fixMkt fixTokRenew 4 120 2000 0 =
      renewLicense fixReg fixMkt fixTokRenew 4 100 2000 0 := by
  have hP : getTotalPrice fixMkt 0 "commercial" [] = .ok 300 := by rfl
  have hp : getLicensePrice fixMkt (fixTokRenew.purchaseSnapshots 0).modelId
      (fixTokRenew.purchaseSnapshots 0).license.licenseType = .ok 100 := by rfl
  refine ⟨?_, ?_, ?_, ?_⟩
  · cases H : purchaseModel fixReg fixMkt fixTok 2 350 20 0 "commercial" [] with
    | error e =>
        have hx : errMsg (purchaseModel fixReg fixMkt fixTok 2 350 20 0 "commercial" []) =
            none := by decide
        rw [H] at hx
        simp [errMsg] at hx
    | ok r =>
        have hs := (excess_payment_retained.1 fixReg fixMkt fixTok 2 350 20 0
          "commercial" [] 300 r hP H).1
        simp [Except.toOption, hs]
  · cases H : purchaseModel fixReg fixMkt fixTok 2 350 20 0 "commercial" [] with
    | error e =>
        have hx : errMsg (purchaseModel fixReg fixMkt fixTok 2 350 20 0 "commercial" []) =
            none := by decide
        rw [H] at hx
        simp [errMsg] at hx
    | ok r =>
        have h2 := (excess_payment_retained.1 fixReg fixMkt fixTok 2 350 20 0
          "commercial" [] 300 r hP H).2 300 (by decide)
        exact h2.symm
  · cases H : renewLicense fixReg fixMkt fixTokRenew 4 120 2000 0 with
    | error e =>
        have hx : errMsg (renewLicense fixReg fixMkt fixTokRenew 4 120 2000 0) =
            none := by decide
        rw [H] at hx
        simp [errMsg] at hx
    | ok r =>
        have hs := (excess_payment_retained.2 fixReg fixMkt fixTokRenew 4 120 2000 0
          100 r hp H).2.1 (fun hx => absurd hx (by decide))
        simp [Except.toOption, hs]
  · cases H : renewLicense fixReg fixMkt fixTokRenew 4 120 2000 0 with
    | error e =>
        have hx : errMsg (renewLicense fixReg fixMkt fixTokRenew 4 120 2000 0) =
            none := by decide
        rw [H] at hx
        simp [errMsg] at hx
    | ok r =>
        have h2 := (excess_payment_retained.2 fixReg fixMkt fixTokRenew 4 120 2000 0
          100 r hp H).2.2 100 (by decide)
        exact h2.symm

end Osmo
